import Mathlib

/-!
Verification of the uds-cli bundle assembly engine (package `bundle`,
function `Create` / `CreateAndPublish`, plus `config.GetArch`) against its
natural-language specification.

The Go source is shallowly embedded: pure helper functions become Lean
functions, the stateful assembly loop becomes explicit state passing over a
content-store model, and `[]byte` values become `List Nat` (each entry a
byte value).  The digest algorithm used by `content.NewDescriptorFromBytes`
(SHA-256, lowercase hex) is implemented concretely so that digest-format
properties are provable and all definitions are executable.
-/

deriving instance DecidableEq for Except

set_option maxRecDepth 100000

namespace Uds

/-! ## SHA-256 over byte lists

Concrete implementation of the digest algorithm used by the Go side
(`crypto/sha256` via `content.NewDescriptorFromBytes` and
`go-digest`).  Words are `Nat` reduced mod 2^32 at every step.
-/

/-- 2^32, the word modulus. -/
def w32 : Nat := 4294967296

/-- Addition mod 2^32. -/
def add32 (a b : Nat) : Nat := (a + b) % w32

/-- Right rotation of a 32-bit word by `n`. -/
def rotr32 (n x : Nat) : Nat := ((x >>> n) ||| (x <<< (32 - n))) % w32

/-- Bitwise complement on 32 bits. -/
def not32 (x : Nat) : Nat := x ^^^ 4294967295

/-- SHA-256 round constants. -/
def shaK : List Nat :=
  [1116352408, 1899447441, 3049323471, 3921009573,
   961987163, 1508970993, 2453635748, 2870763221,
   3624381080, 310598401, 607225278, 1426881987,
   1925078388, 2162078206, 2614888103, 3248222580,
   3835390401, 4022224774, 264347078, 604807628,
   770255983, 1249150122, 1555081692, 1996064986,
   2554220882, 2821834349, 2952996808, 3210313671,
   3336571891, 3584528711, 113926993, 338241895,
   666307205, 773529912, 1294757372, 1396182291,
   1695183700, 1986661051, 2177026350, 2456956037,
   2730485921, 2820302411, 3259730800, 3345764771,
   3516065817, 3600352804, 4094571909, 275423344,
   430227734, 506948616, 659060556, 883997877,
   958139571, 1322822218, 1537002063, 1747873779,
   1955562222, 2024104815, 2227730452, 2361852424,
   2428436474, 2756734187, 3204031479, 3329325298]

/-- Working state of the compression function: eight 32-bit words. -/
structure Hash8 where
  a : Nat
  b : Nat
  c : Nat
  d : Nat
  e : Nat
  f : Nat
  g : Nat
  h : Nat
deriving Repr, DecidableEq, Inhabited

/-- SHA-256 initial hash value. -/
def shaInit : Hash8 :=
  ⟨1779033703, 3144134277, 1013904242, 2773480762,
   1359893119, 2600822924, 528734635, 1541459225⟩

/-- One compression round, given the round constant `k` and schedule word `wt`. -/
def shaRound (s : Hash8) (k wt : Nat) : Hash8 :=
  let s1 := rotr32 6 s.e ^^^ rotr32 11 s.e ^^^ rotr32 25 s.e
  let ch := (s.e &&& s.f) ^^^ (not32 s.e &&& s.g)
  let t1 := (s.h + s1 + ch + k + wt) % w32
  let s0 := rotr32 2 s.a ^^^ rotr32 13 s.a ^^^ rotr32 22 s.a
  let mj := (s.a &&& s.b) ^^^ (s.a &&& s.c) ^^^ (s.b &&& s.c)
  let t2 := (s0 + mj) % w32
  ⟨(t1 + t2) % w32, s.a, s.b, s.c, (s.d + t1) % w32, s.e, s.f, s.g⟩

/-- Extend the 16-word message schedule to 64 words. -/
def shaExtend : Nat → List Nat → List Nat
  | 0, ws => ws
  | n + 1, ws =>
    let t := ws.length
    let w2 := ws.getD (t - 2) 0
    let w7 := ws.getD (t - 7) 0
    let w15 := ws.getD (t - 15) 0
    let w16 := ws.getD (t - 16) 0
    let s0 := rotr32 7 w15 ^^^ rotr32 18 w15 ^^^ (w15 >>> 3)
    let s1 := rotr32 17 w2 ^^^ rotr32 19 w2 ^^^ (w2 >>> 10)
    shaExtend n (ws ++ [(w16 + s0 + w7 + s1) % w32])

/-- Convert four consecutive bytes (big-endian) into 32-bit words. -/
def wordsOfBytes : List Nat → List Nat
  | b0 :: b1 :: b2 :: b3 :: rest =>
    (((b0 % 256) <<< 24) + ((b1 % 256) <<< 16) + ((b2 % 256) <<< 8) + (b3 % 256))
      :: wordsOfBytes rest
  | _ => []

/-- Run the 64 rounds of the compression function over a schedule. -/
def shaRounds (s : Hash8) : List Nat → List Nat → Hash8
  | k :: ks, wt :: ws => shaRounds (shaRound s k wt) ks ws
  | _, _ => s

/-- Compress one 64-byte block into the running hash value. -/
def shaBlock (s : Hash8) (block : List Nat) : Hash8 :=
  let ws := shaExtend 48 (wordsOfBytes block)
  let t := shaRounds s shaK ws
  ⟨add32 s.a t.a, add32 s.b t.b, add32 s.c t.c, add32 s.d t.d,
   add32 s.e t.e, add32 s.f t.f, add32 s.g t.g, add32 s.h t.h⟩

/-- Split a byte list into 64-byte blocks; `fuel` bounds the recursion depth
(structural recursion on the fuel keeps the definition kernel-reducible). -/
def toBlocksAux : Nat → List Nat → List (List Nat)
  | 0, _ => []
  | _ + 1, [] => []
  | fuel + 1, l => l.take 64 :: toBlocksAux fuel (l.drop 64)

/-- Split a byte list into 64-byte blocks. -/
def toBlocks (l : List Nat) : List (List Nat) :=
  toBlocksAux l.length l

/-- Big-endian 8-byte encoding of the bit length. -/
def lenBytes (bits : Nat) : List Nat :=
  [(bits >>> 56) % 256, (bits >>> 48) % 256, (bits >>> 40) % 256,
   (bits >>> 32) % 256, (bits >>> 24) % 256, (bits >>> 16) % 256,
   (bits >>> 8) % 256, bits % 256]

/-- SHA-256 message padding. -/
def shaPad (msg : List Nat) : List Nat :=
  let l := msg.length
  let zeros := (64 - ((l + 9) % 64)) % 64
  msg ++ [0x80] ++ List.replicate zeros 0 ++ lenBytes (8 * l)

/-- Big-endian byte serialization of one 32-bit word. -/
def wordBytes (w : Nat) : List Nat :=
  [(w >>> 24) % 256, (w >>> 16) % 256, (w >>> 8) % 256, w % 256]

/-- The 32 digest bytes of a final hash state. -/
def digestBytes (s : Hash8) : List Nat :=
  wordBytes s.a ++ wordBytes s.b ++ wordBytes s.c ++ wordBytes s.d ++
  wordBytes s.e ++ wordBytes s.f ++ wordBytes s.g ++ wordBytes s.h

/-- SHA-256 of a byte list, as 32 bytes. -/
def sha256Bytes (msg : List Nat) : List Nat :=
  digestBytes ((toBlocks (shaPad msg)).foldl shaBlock shaInit)

/-- Lowercase hex digit for `n % 16`. -/
def hexDigit (n : Nat) : Char :=
  "0123456789abcdef".data.getD (n % 16) '0'

/-- Lowercase hex string of a byte list (two digits per byte). -/
def hexOfBytes (bs : List Nat) : String :=
  String.mk (bs.flatMap fun b => [hexDigit (b / 16), hexDigit b])

/-- Lowercase 64-character hex digest, as produced by `digest.Encoded()`. -/
def sha256Hex (msg : List Nat) : String :=
  hexOfBytes (sha256Bytes msg)

-- NIST test vector: sha256 of the empty message.
example :
    sha256Hex [] =
    "e3b0c44298fc1c149afbf4c8996fb92427ae41e4649b934ca495991b7852b855" := by
  decide

-- NIST test vector: sha256 of "abc".
example :
    sha256Hex [0x61, 0x62, 0x63] =
    "ba7816bf8f01cfea414140de5dae2223b00361a396177a9cb410ff61f20015ad" := by
  decide

/-! ## OCI data model

Constants from `opencontainers/image-spec` and `zarf/src/pkg/oci`, and the
string constants of `src/config/config.go`.
-/

/-- `ocispec.MediaTypeImageManifest`. -/
def MediaTypeImageManifest : String := "application/vnd.oci.image.manifest.v1+json"

/-- `ocispec.MediaTypeImageConfig`. -/
def MediaTypeImageConfig : String := "application/vnd.oci.image.config.v1+json"

/-- `oci.ZarfLayerMediaTypeBlob`. -/
def ZarfLayerMediaTypeBlob : String := "application/vnd.zarf.layer.v1.blob"

/-- `ocispec.AnnotationTitle`. -/
def AnnotationTitle : String := "org.opencontainers.image.title"

/-- `ocispec.AnnotationDescription`. -/
def AnnotationDescription : String := "org.opencontainers.image.description"

/-- `ocispec.AnnotationURL`. -/
def AnnotationURL : String := "org.opencontainers.image.url"

/-- `ocispec.AnnotationAuthors`. -/
def AnnotationAuthors : String := "org.opencontainers.image.authors"

/-- `ocispec.AnnotationDocumentation`. -/
def AnnotationDocumentation : String := "org.opencontainers.image.documentation"

/-- `ocispec.AnnotationSource`. -/
def AnnotationSource : String := "org.opencontainers.image.source"

/-- `ocispec.AnnotationVendor`. -/
def AnnotationVendor : String := "org.opencontainers.image.vendor"

/-- `config.BlobsDir` from src/config/config.go. -/
def BlobsDir : String := "blobs/sha256"

/-- `config.BundleYAML` from src/config/config.go. -/
def BundleYAML : String := "uds-bundle.yaml"

/-- `config.BundleYAMLSignature` from src/config/config.go. -/
def BundleYAMLSignature : String := "uds-bundle.yaml.sig"

/-- An OCI descriptor (`ocispec.Descriptor`): media type, sha256 digest in
lowercase hex (the `Encoded()` form), size in bytes, and annotations. -/
structure Descriptor where
  mediaType : String
  digestHex : String
  size : Nat
  annots : List (String × String)
deriving Repr, DecidableEq, Inhabited

/-- `content.NewDescriptorFromBytes`: descriptor with the sha256 digest and
length of the given bytes, and no annotations. -/
def descriptorOfBytes (mt : String) (bs : List Nat) : Descriptor :=
  ⟨mt, sha256Hex bs, bs.length, []⟩

/-- An OCI image manifest (`ocispec.Manifest`).  A freshly allocated
`ocispec.Manifest\x7b\x7d` in Go has schema version 0, empty media type,
zero config descriptor and nil layers/annotations. -/
structure Manifest where
  schemaVersion : Nat
  mediaType : String
  config : Descriptor
  layers : List Descriptor
  annots : List (String × String)
deriving Repr, DecidableEq, Inhabited

/-- The Go zero value `ocispec.Manifest\x7b\x7d`. -/
def emptyManifest : Manifest := ⟨0, "", default, [], []⟩

/-- `oci.ConfigPartial` from zarf: the bundle config blob contents. -/
structure ConfigPartial where
  Architecture : String
  OCIVersion : String
  Annotations : List (String × String)
deriving Repr, DecidableEq, Inhabited

/-! ## uds-cli data types

Modelled from the spec: the repository package `src/types` (UDSBundle,
UDSMetadata, UDSBuildData, ZarfPackage) is not under src/; the fields follow
spec section 6 (bundle input schema) and section 3 (data model).
-/

/-- Modelled from the spec: a `types.ZarfPackage` entry of
`zarfPackages`: name, optional repository, ref, optional path. -/
structure ZarfPackage where
  Name : String
  Repository : String
  Ref : String
  Path : String
deriving Repr, DecidableEq, Inhabited

/-- Modelled from the spec: `types.UDSMetadata` — name, description, version,
architecture, and the optional url/authors/documentation/source/vendor. -/
structure UDSMetadata where
  Name : String
  Description : String
  Version : String
  Architecture : String
  URL : String
  Authors : String
  Documentation : String
  Source : String
  Vendor : String
deriving Repr, DecidableEq, Inhabited

/-- Modelled from the spec: `types.UDSBuildData` — build provenance carrying
the architecture. -/
structure UDSBuildData where
  Architecture : String
deriving Repr, DecidableEq, Inhabited

/-- Modelled from the spec: `types.UDSBundle` — metadata + build data +
ordered list of child packages. -/
structure UDSBundle where
  Metadata : UDSMetadata
  Build : UDSBuildData
  ZarfPackages : List ZarfPackage
deriving Repr, DecidableEq, Inhabited

/-! ## Byte serialization

The Go side serializes with `encoding/json` and `goyaml.Marshal`.  The
claims depend only on the serialization being a deterministic function of
the serialized value, so a simple concrete rendering stands in for the
exact JSON/YAML byte syntax. -/

/-- Bytes of a string (character code points; sha256 reduces mod 256). -/
def strCodes (s : String) : List Nat := s.data.map Char.toNat

/-- Render an annotations list. -/
def renderAnnots (l : List (String × String)) : String :=
  l.foldl (fun acc p => acc ++ p.1 ++ "=" ++ p.2 ++ ";") ""

/-- Render a descriptor. -/
def renderDescriptor (d : Descriptor) : String :=
  "desc(" ++ d.mediaType ++ "," ++ d.digestHex ++ "," ++ toString d.size ++ ","
    ++ renderAnnots d.annots ++ ")"

/-- Stands for `json.Marshal` of an `ocispec.Manifest` (deterministic
rendering of every field; the mediaType field is empty when unset). -/
def renderManifest (m : Manifest) : String :=
  "manifest(" ++ toString m.schemaVersion ++ "," ++ m.mediaType ++ ","
    ++ renderDescriptor m.config ++ ",layers("
    ++ m.layers.foldl (fun acc d => acc ++ renderDescriptor d ++ ";") ""
    ++ ")," ++ renderAnnots m.annots ++ ")"

/-- `json.Marshal` of the root manifest, as bytes. -/
def encodeManifest (m : Manifest) : List Nat := strCodes (renderManifest m)

/-- Stands for `json.Marshal` of an `oci.ConfigPartial`. -/
def renderConfig (c : ConfigPartial) : String :=
  "config(" ++ c.Architecture ++ "," ++ c.OCIVersion ++ ","
    ++ renderAnnots c.Annotations ++ ")"

/-- `json.Marshal` of the config blob, as bytes. -/
def encodeConfig (c : ConfigPartial) : List Nat := strCodes (renderConfig c)

/-- Render one child package entry. -/
def renderPkg (p : ZarfPackage) : String :=
  "pkg(" ++ p.Name ++ "," ++ p.Repository ++ "," ++ p.Ref ++ "," ++ p.Path ++ ")"

/-- Stands for `goyaml.Marshal` of the whole bundle (uds-bundle.yaml). -/
def renderBundle (b : UDSBundle) : String :=
  "bundle(" ++ b.Metadata.Name ++ "," ++ b.Metadata.Description ++ ","
    ++ b.Metadata.Version ++ "," ++ b.Metadata.Architecture ++ ","
    ++ b.Metadata.URL ++ "," ++ b.Metadata.Authors ++ ","
    ++ b.Metadata.Documentation ++ "," ++ b.Metadata.Source ++ ","
    ++ b.Metadata.Vendor ++ ",build(" ++ b.Build.Architecture ++ "),pkgs("
    ++ b.ZarfPackages.foldl (fun acc p => acc ++ renderPkg p ++ ";") ""
    ++ "))"

/-- `goyaml.Marshal` of the bundle, as bytes. -/
def encodeBundle (b : UDSBundle) : List Nat := strCodes (renderBundle b)

/-! ## Content store

Modelled from the spec (section 4.1): the oras `ocistore.Store` used by
`Create` is an external library; the spec contract is `put` with
deduplication by digest, plus an `index.json` listing manifest descriptors.
Per the source comment in `Create` ("rebuild index.json because pushing Zarf
image manifests adds unnecessary entries"), pushing a manifest-typed blob
appends an entry to the index. -/

/-- The local OCI content store: blob map (digest hex to bytes) and the
manifest descriptors listed by index.json. -/
structure OCIStore where
  blobs : List (String × List Nat)
  indexManifests : List Descriptor
deriving Repr, DecidableEq, Inhabited

/-- The fresh store created by `ocistore.NewWithContext` in a new scratch
directory. -/
def emptyStore : OCIStore := ⟨[], []⟩

/-- Does a media type denote an OCI image manifest (index-tracked)? -/
def isManifestMedia (mt : String) : Bool :=
  mt == MediaTypeImageManifest

/-- Modelled from the spec: `store.Push` — write-through put, idempotent on
an already present digest; a manifest push also records an index entry. -/
def pushBlob (st : OCIStore) (d : Descriptor) (bs : List Nat) : OCIStore :=
  { blobs :=
      if (st.blobs.lookup d.digestHex).isSome then st.blobs
      else st.blobs ++ [(d.digestHex, bs)]
    indexManifests :=
      if isManifestMedia d.mediaType then st.indexManifests ++ [d]
      else st.indexManifests }

/-- Look a blob up by digest. -/
def lookupBlob (st : OCIStore) (digest : String) : Option (List Nat) :=
  st.blobs.lookup digest

/-- The archival path map built during `Create` (`PathMap` in the source):
absolute source path to relative destination path, keys unique with
last-write-wins. -/
abbrev PathMap : Type := List (String × String)

/-- Insert into a path map (overwrite an existing key). -/
def pmAdd (pm : PathMap) (src dst : String) : PathMap :=
  if (pm.lookup src).isSome then
    pm.map fun p => if p.1 = src then (src, dst) else p
  else pm ++ [(src, dst)]

/-- `filepath.Join` for the two-component paths used here. -/
def joinPath (a b : String) : String := a ++ "/" ++ b

/-! ## Package mirror

Modelled from the spec (section 4.3): the repository package
`src/pkg/bundler` (NewRemoteBundler / NewLocalBundler, PushManifest,
PushLayers, Extract, Load, ToBundle) is not under src/.  The data a child
package contributes — its manifest bytes and blob contents — is supplied by
an environment; the mirror operations push that data into the destination
exactly as the spec contract states. -/

/-- Modelled from the spec: what a remote child package provides — the
manifest (media type, bytes, annotations) and its blobs in
manifest-declared order. -/
structure ChildMirror where
  manifestMediaType : String
  manifestBytes : List Nat
  manifestAnnots : List (String × String)
  layers : List (String × List Nat)
deriving Repr, DecidableEq, Inhabited

/-- Modelled from the spec: what a local child package provides after
Extract/Load — the blob files under its scratch blobs/sha256 directory and
the bytes of the rewritten child manifest produced by ToBundle. -/
structure LocalMirror where
  blobs : List (List Nat)
  rewrittenManifestBytes : List Nat
deriving Repr, DecidableEq, Inhabited

/-- Per-child environment: the remote-variant and local-variant data for
the child at a given index (the branch taken is decided by `Create`). -/
structure MirrorData where
  remote : ChildMirror
  loc : LocalMirror
deriving Repr, DecidableEq, Inhabited

/-- Modelled from the spec: `RemoteBundler.PushManifest` — push the child
manifest into the destination store and return its descriptor as it now
lives there. -/
def remotePushManifest (st : OCIStore) (cm : ChildMirror) :
    OCIStore × Descriptor :=
  let d := { descriptorOfBytes cm.manifestMediaType cm.manifestBytes with
             annots := cm.manifestAnnots }
  (pushBlob st d cm.manifestBytes, d)

/-- Modelled from the spec: `RemoteBundler.PushLayers` — push every blob
referenced by the child manifest, in manifest-declared order, returning the
descriptors of everything pushed. -/
def remotePushLayers (st : OCIStore) (cm : ChildMirror) :
    OCIStore × List Descriptor :=
  cm.layers.foldl
    (fun acc l =>
      let d := descriptorOfBytes l.1 l.2
      (pushBlob acc.1 d l.2, acc.2 ++ [d]))
    (st, [])

/-- Modelled from the spec: `LocalBundler.ToBundle` — put every blob file
into the shared bundle store, push the rewritten child manifest (media type
`application/vnd.oci.image.manifest.v1+json`), append the resulting paths
to the shared path map, and return the rewritten manifest descriptor. -/
def toBundle (st : OCIStore) (pm : PathMap) (tmp : String) (lm : LocalMirror) :
    OCIStore × PathMap × Descriptor :=
  let step := fun (acc : OCIStore × PathMap) (bs : List Nat) =>
    let d := descriptorOfBytes ZarfLayerMediaTypeBlob bs
    (pushBlob acc.1 d bs,
     pmAdd acc.2 (joinPath tmp (joinPath BlobsDir d.digestHex))
       (joinPath BlobsDir d.digestHex))
  let acc1 := lm.blobs.foldl step (st, pm)
  let mDesc := descriptorOfBytes MediaTypeImageManifest lm.rewrittenManifestBytes
  let st2 := pushBlob acc1.1 mDesc lm.rewrittenManifestBytes
  let pm2 := pmAdd acc1.2 (joinPath tmp (joinPath BlobsDir mDesc.digestHex))
    (joinPath BlobsDir mDesc.digestHex)
  (st2, pm2, mDesc)

/-! ## bundle.Create (local mode)

Embedding of `Create` from the bundle package: the per-child loop, the
uds-bundle.yaml and root-manifest pushes, the index.json rewrite, the
conditional signature push, and the tarball naming of `writeTarball`. -/

/-- Error message of the architecture guard in `Create` and
`CreateAndPublish`. -/
def errArchRequired : String := "architecture is required for bundling"

/-- Error message returned by `Create` for a child with neither repository
nor path. -/
def errNoRepoNoPath : String :=
  "todo: haven\x27t we already validated that Path or Repository is valid"

/-- Loop state of the per-child loop of `Create`: the store, the root
manifest layers accumulated so far, the archival path map, and the child
packages processed so far (with any ref rewrites applied). -/
structure CreateState where
  store : OCIStore
  layers : List Descriptor
  pathMap : PathMap
  pkgs : List ZarfPackage
deriving Repr, DecidableEq, Inhabited

/-- One iteration of the `for i, pkg := range bundle.ZarfPackages` loop in
`Create`: remote branch when `pkg.Repository != ""`, local branch when
`pkg.Path != ""`, error otherwise. -/
def processPkg (tmp arch : String) (md : MirrorData) (st : CreateState)
    (pkg : ZarfPackage) : Except String CreateState :=
  if pkg.Repository ≠ "" then
    let r1 := remotePushManifest st.store md.remote
    let mDesc := r1.2
    let pm1 := pmAdd st.pathMap
      (joinPath tmp (joinPath BlobsDir mDesc.digestHex))
      (joinPath BlobsDir mDesc.digestHex)
    let r2 := remotePushLayers r1.1 md.remote
    let pm2 := r2.2.foldl
      (fun pm d => pmAdd pm (joinPath tmp (joinPath BlobsDir d.digestHex))
        (joinPath BlobsDir d.digestHex)) pm1
    .ok ⟨r2.1, st.layers ++ [mDesc], pm2, st.pkgs ++ [pkg]⟩
  else if pkg.Path ≠ "" then
    let r1 := toBundle st.store st.pathMap tmp md.loc
    let zDesc := r1.2.2
    let newRef := pkg.Ref ++ "-" ++ arch ++ "@sha256:" ++ zDesc.digestHex
    let pm2 := pmAdd r1.2.1
      (joinPath tmp (joinPath BlobsDir zDesc.digestHex))
      (joinPath BlobsDir zDesc.digestHex)
    .ok ⟨r1.1, st.layers ++ [zDesc], pm2,
         st.pkgs ++ [{ pkg with Ref := newRef }]⟩
  else
    .error errNoRepoNoPath

/-- The whole per-child loop, threading the index `i` like the Go range
loop does. -/
def foldPkgs (tmp arch : String) (env : Nat → MirrorData) :
    Nat → CreateState → List ZarfPackage → Except String CreateState
  | _, st, [] => .ok st
  | i, st, p :: ps =>
    match processPkg tmp arch (env i) st p with
    | .error e => .error e
    | .ok st1 => foldPkgs tmp arch env (i + 1) st1 ps

/-- `manifestAnnotationsFromMetadata`: description always; url, authors,
documentation, source, vendor only when non-empty. -/
def manifestAnnotationsFromMetadata (m : UDSMetadata) : List (String × String) :=
  let a0 := [(AnnotationDescription, m.Description)]
  let a1 := if m.URL ≠ "" then a0 ++ [(AnnotationURL, m.URL)] else a0
  let a2 := if m.Authors ≠ "" then a1 ++ [(AnnotationAuthors, m.Authors)] else a1
  let a3 := if m.Documentation ≠ "" then
      a2 ++ [(AnnotationDocumentation, m.Documentation)] else a2
  let a4 := if m.Source ≠ "" then a3 ++ [(AnnotationSource, m.Source)] else a3
  if m.Vendor ≠ "" then a4 ++ [(AnnotationVendor, m.Vendor)] else a4

/-- The `oci.ConfigPartial` value built identically by
`createManifestConfig` and `pushManifestConfigFromMetadata`. -/
def configPartialOfMetadata (m : UDSMetadata) (b : UDSBuildData) : ConfigPartial :=
  ⟨b.Architecture, "1.0.1",
   [(AnnotationTitle, m.Name), (AnnotationDescription, m.Description)]⟩

/-- `createManifestConfig`: serialize the config and build its descriptor
with media type `application/vnd.oci.image.manifest.v1+json` (the local
mode uses the manifest media type, not the config media type). -/
def createManifestConfig (m : UDSMetadata) (b : UDSBuildData) : Descriptor :=
  descriptorOfBytes MediaTypeImageManifest (encodeConfig (configPartialOfMetadata m b))

/-- `pushBundleManifestToStore`: marshal the bundle, build the blob
descriptor, set the title annotation, push. -/
def pushBundleManifestToStore (st : OCIStore) (b : UDSBundle) :
    OCIStore × Descriptor :=
  let bs := encodeBundle b
  let d := { descriptorOfBytes ZarfLayerMediaTypeBlob bs with
             annots := [(AnnotationTitle, BundleYAML)] }
  (pushBlob st d bs, d)

/-- `pushBundleSignature`: push the signature blob, then set the title
annotation on the returned descriptor. -/
def pushBundleSignature (st : OCIStore) (sig : List Nat) :
    OCIStore × Descriptor :=
  let d0 := descriptorOfBytes ZarfLayerMediaTypeBlob sig
  let st1 := pushBlob st d0 sig
  (st1, { d0 with annots := [(AnnotationTitle, BundleYAMLSignature)] })

/-- Result of a successful `Create`.  `pushedRootManifest` is the manifest
value at `json.Marshal` time (the bytes pushed to the store and referenced
by index.json); `memRootManifest` is the in-memory `rootManifest` variable
at the end of `Create`, after the signature block appended to it. -/
structure CreateResult where
  bundle : UDSBundle
  pushedRootManifest : Manifest
  memRootManifest : Manifest
  rootManifestDesc : Descriptor
  store : OCIStore
  pathMap : PathMap
  tarballName : String
deriving Repr, DecidableEq, Inhabited

/-- Everything `Create` does after the per-child loop. -/
def finishCreate (tmp : String) (bundleIn : UDSBundle) (signature : List Nat)
    (st : CreateState) : CreateResult :=
  let bundle1 := { bundleIn with ZarfPackages := st.pkgs }
  let r1 := pushBundleManifestToStore st.store bundle1
  let yamlDesc := r1.2
  let layers1 := st.layers ++ [yamlDesc]
  let pm1 := pmAdd st.pathMap
    (joinPath tmp (joinPath BlobsDir yamlDesc.digestHex))
    (joinPath BlobsDir yamlDesc.digestHex)
  let configDesc := createManifestConfig bundle1.Metadata bundle1.Build
  let root : Manifest :=
    { schemaVersion := 2
      mediaType := MediaTypeImageManifest
      config := configDesc
      layers := layers1
      annots := manifestAnnotationsFromMetadata bundle1.Metadata }
  let rootBytes := encodeManifest root
  let rootDesc := descriptorOfBytes MediaTypeImageManifest rootBytes
  let st2 := pushBlob r1.1 rootDesc rootBytes
  let pm2 := pmAdd pm1
    (joinPath tmp (joinPath BlobsDir rootDesc.digestHex))
    (joinPath BlobsDir rootDesc.digestHex)
  let st3 := { st2 with indexManifests := [rootDesc] }
  let pm3 := pmAdd (pmAdd pm2 (joinPath tmp "index.json") "index.json")
    (joinPath tmp "oci-layout") "oci-layout"
  let after :=
    if signature.length > 0 then
      let r2 := pushBundleSignature st3 signature
      (r2.1, { root with layers := root.layers ++ [r2.2] })
    else (st3, root)
  let tarName := "uds-bundle-" ++ bundle1.Metadata.Name ++ "-"
    ++ bundle1.Metadata.Architecture ++ "-" ++ bundle1.Metadata.Version
    ++ ".tar.zst"
  ⟨bundle1, root, after.2, rootDesc, after.1, pm3, tarName⟩

/-- The initial loop state of `Create`: the fresh store of
`ocistore.NewWithContext`, no layers, empty path map, no packages yet. -/
def st0 : CreateState := ⟨emptyStore, [], [], []⟩

/-- `bundle.Create`: architecture guard, per-child loop over a fresh store,
then the finishing sequence. -/
def Create (tmp : String) (bundleIn : UDSBundle) (signature : List Nat)
    (env : Nat → MirrorData) : Except String CreateResult :=
  if bundleIn.Metadata.Architecture = "" then .error errArchRequired
  else
    match foldPkgs tmp bundleIn.Metadata.Architecture env 0
        st0 bundleIn.ZarfPackages with
    | .error e => .error e
    | .ok st => .ok (finishCreate tmp bundleIn signature st)

/-! ## bundle.CreateAndPublish (remote mode) -/

/-- The destination registry as seen through `oci.OrasRemote`: pushed blobs
by digest, and manifests pushed with a tag. -/
structure RemoteState where
  blobs : List (String × List Nat)
  tagged : List (String × Descriptor × List Nat)
deriving Repr, DecidableEq, Inhabited

/-- `remoteDst.PushLayer` (zarf oci): push bytes under the given media
type, returning `content.NewDescriptorFromBytes` of them. -/
def remotePushLayer (r : RemoteState) (bs : List Nat) (mt : String) :
    RemoteState × Descriptor :=
  let d := descriptorOfBytes mt bs
  ({ r with blobs :=
      if (r.blobs.lookup d.digestHex).isSome then r.blobs
      else r.blobs ++ [(d.digestHex, bs)] }, d)

/-- `pushManifestConfigFromMetadata`: same config value as the local mode,
pushed with media type `application/vnd.oci.image.config.v1+json`. -/
def pushManifestConfigFromMetadata (r : RemoteState) (m : UDSMetadata)
    (b : UDSBuildData) : RemoteState × Descriptor :=
  remotePushLayer r (encodeConfig (configPartialOfMetadata m b)) MediaTypeImageConfig

/-- The per-child loop of `CreateAndPublish`: push the child manifest and
its layers to the destination, overwrite the returned descriptor media
type with the image-manifest type, and append it to the root layers. -/
def publishPkgs (env : Nat → ChildMirror) :
    Nat → RemoteState × List Descriptor → List ZarfPackage →
    RemoteState × List Descriptor
  | _, acc, [] => acc
  | i, acc, _p :: ps =>
    let cm := env i
    let r1 := (remotePushLayer acc.1 cm.manifestBytes cm.manifestMediaType).1
    let d0 := { descriptorOfBytes cm.manifestMediaType cm.manifestBytes with
                annots := cm.manifestAnnots }
    let d1 := { d0 with mediaType := MediaTypeImageManifest }
    let r2 := cm.layers.foldl (fun rr l => (remotePushLayer rr l.2 l.1).1) r1
    publishPkgs env (i + 1) (r2, acc.2 ++ [d1]) ps

/-- Result of a successful `CreateAndPublish`: the root manifest value that
was marshaled, the descriptor it was pushed under (`expected`), and the
destination state. -/
structure PublishResult where
  rootManifest : Manifest
  rootManifestDesc : Descriptor
  remote : RemoteState
deriving Repr, DecidableEq, Inhabited

/-- `bundle.CreateAndPublish`: architecture guard; child manifests and
layers; uds-bundle.yaml; optional signature; config; tagged root manifest.
The root manifest starts as the zero value `ocispec.Manifest\x7b\x7d` and
its MediaType field is never assigned. -/
def CreateAndPublish (dstRef : String) (r0 : RemoteState) (bundle : UDSBundle)
    (signature : List Nat) (env : Nat → ChildMirror) :
    Except String PublishResult :=
  if bundle.Metadata.Architecture = "" then .error errArchRequired
  else
    let acc := publishPkgs env 0 (r0, []) bundle.ZarfPackages
    let yamlBytes := encodeBundle bundle
    let ry := remotePushLayer acc.1 yamlBytes ZarfLayerMediaTypeBlob
    let yamlDesc := { ry.2 with annots := [(AnnotationTitle, BundleYAML)] }
    let layers1 := acc.2 ++ [yamlDesc]
    let afterSig :=
      if signature.length > 0 then
        let rs := remotePushLayer ry.1 signature ZarfLayerMediaTypeBlob
        (rs.1, layers1 ++
          [{ rs.2 with annots := [(AnnotationTitle, BundleYAMLSignature)] }])
      else (ry.1, layers1)
    let rc := pushManifestConfigFromMetadata afterSig.1 bundle.Metadata bundle.Build
    let root : Manifest :=
      { emptyManifest with
        schemaVersion := 2
        config := rc.2
        layers := afterSig.2
        annots := manifestAnnotationsFromMetadata bundle.Metadata }
    let rootBytes := encodeManifest root
    let expected := descriptorOfBytes MediaTypeImageManifest rootBytes
    let r5 := { rc.1 with tagged := rc.1.tagged ++ [(dstRef, expected, rootBytes)] }
    .ok ⟨root, expected, r5⟩

/-! ## config.GetArch -/

/-- The loop body of `GetArch`: first non-empty entry, else the fallback. -/
def getArchAux (goarch : String) : List String → String
  | [] => goarch
  | a :: rest => if a ≠ "" then a else getArchAux goarch rest

/-- `config.GetArch`: priority list is the global `CLIArch` followed by the
arguments; the fallback is `runtime.GOARCH`.  The two globals are passed
explicitly. -/
def GetArch (cliArch goarch : String) (archs : List String) : String :=
  getArchAux goarch (cliArch :: archs)

/-! ## Auxiliary predicates and helpers used by the claims -/

/-- Is `needle` a prefix of `hay` (character lists)? -/
def isPrefAux : List Char → List Char → Bool
  | [], _ => true
  | _ :: _, [] => false
  | a :: as, b :: bs => a == b && isPrefAux as bs

/-- Does `hay` contain `needle` as a contiguous substring? -/
def hasSubAux (needle : List Char) : List Char → Bool
  | [] => isPrefAux needle []
  | b :: bs => isPrefAux needle (b :: bs) || hasSubAux needle bs

/-- Substring test on strings. -/
def strHasSub (needle hay : String) : Bool := hasSubAux needle.data hay.data

/-- The lowercase hex alphabet. -/
def hexAlpha : List Char := "0123456789abcdef".data

/-- Map with an index that starts at `i`, mirroring the Go range loop. -/
def mapFromIdx (f : Nat → α → β) : Nat → List α → List β
  | _, [] => []
  | i, a :: as => f i a :: mapFromIdx f (i + 1) as

/-- What the per-child loop of `Create` does to one child package record:
remote children are untouched; local children get the ref rewrite of
line `bundle.ZarfPackages[i].Ref = ... + zarfPkgDesc.Digest.Encoded()`. -/
def mirroredPkg (arch : String) (env : Nat → MirrorData) (i : Nat)
    (p : ZarfPackage) : ZarfPackage :=
  if p.Repository ≠ "" then p
  else { p with Ref := p.Ref ++ "-" ++ arch ++ "@sha256:"
          ++ sha256Hex (env i).loc.rewrittenManifestBytes }

/-- Extract the payload of a successful `Create`. -/
def cResult (x : Except String CreateResult) : CreateResult :=
  x.toOption.getD default

/-- Extract the payload of a successful `CreateAndPublish`. -/
def pResult (x : Except String PublishResult) : PublishResult :=
  x.toOption.getD default

/-- A computation that is ok equals ok of its extracted payload. -/
theorem ok_cResult (x : Except String CreateResult) (h : x.isOk = true) :
    x = .ok (cResult x) := by
  cases x with
  | error e => cases h
  | ok r => rfl

/-- A computation that is ok equals ok of its extracted payload. -/
theorem ok_pResult (x : Except String PublishResult) (h : x.isOk = true) :
    x = .ok (pResult x) := by
  cases x with
  | error e => cases h
  | ok r => rfl

/-! ## Digest format lemmas -/

/-- Every hex digit character is drawn from the lowercase hex alphabet. -/
theorem hexDigit_mem (n : Nat) : hexDigit n ∈ hexAlpha := by
  have h : ∀ k : Fin 16,
      "0123456789abcdef".data.getD (k : Nat) '0' ∈ hexAlpha := by decide
  have h16 : n % 16 < 16 := Nat.mod_lt _ (by omega)
  simpa [hexDigit] using h ⟨n % 16, h16⟩

/-- A SHA-256 digest has 32 bytes. -/
theorem sha256Bytes_length (msg : List Nat) : (sha256Bytes msg).length = 32 := by
  simp [sha256Bytes, digestBytes, wordBytes]

/-- The hex form of a SHA-256 digest has 64 characters. -/
theorem sha256Hex_length (msg : List Nat) : (sha256Hex msg).length = 64 := by
  have h : ∀ bs : List Nat,
      (bs.flatMap fun b => [hexDigit (b / 16), hexDigit b]).length
        = 2 * bs.length := by
    intro bs
    induction bs with
    | nil => simp
    | cons a as ih => simp [ih]; omega
  show (((sha256Bytes msg).flatMap
    fun b => [hexDigit (b / 16), hexDigit b]).length) = 64
  rw [h, sha256Bytes_length]

/-- Every character of a hex digest is a lowercase hex digit. -/
theorem sha256Hex_chars (msg : List Nat) :
    ∀ c ∈ (sha256Hex msg).data, c ∈ hexAlpha := by
  intro c hc
  have hm : c ∈ (sha256Bytes msg).flatMap
      fun b => [hexDigit (b / 16), hexDigit b] := hc
  rcases List.mem_flatMap.mp hm with ⟨b, _, hb⟩
  simp only [List.mem_cons, List.not_mem_nil, or_false] at hb
  rcases hb with h | h <;> (subst h; exact hexDigit_mem _)

/-! ## Structural lemmas about the Create loop -/

/-- A signature blob push is not a manifest push. -/
theorem blob_not_manifest : isManifestMedia ZarfLayerMediaTypeBlob = false := by
  decide

theorem mapFromIdx_get? (f : Nat → α → β) :
    ∀ (l : List α) (i j : Nat),
      (mapFromIdx f i l)[j]? = (l[j]?).map fun a => f (i + j) a := by
  intro l
  induction l with
  | nil => intro i j; simp [mapFromIdx]
  | cons a as ih =>
    intro i j
    cases j with
    | zero => simp [mapFromIdx]
    | succ j =>
      have hn : i + 1 + j = i + (j + 1) := by omega
      simp only [mapFromIdx, List.getElem?_cons_succ, ih, hn]

/-- A successful loop iteration appends exactly one package record, the
`mirroredPkg` of the processed child. -/
theorem processPkg_pkgs (tmp arch : String) (env : Nat → MirrorData) (i : Nat)
    (st st1 : CreateState) (pkg : ZarfPackage)
    (h : processPkg tmp arch (env i) st pkg = .ok st1) :
    st1.pkgs = st.pkgs ++ [mirroredPkg arch env i pkg] := by
  unfold processPkg at h
  split at h
  next hrep =>
    cases h
    simp [mirroredPkg, hrep]
  next hrep =>
    split at h
    next hpath =>
      cases h
      simp [mirroredPkg, hrep, toBundle, descriptorOfBytes]
    next hpath => cases h

/-- A successful loop run appends the `mirroredPkg` image of the processed
suffix, indices threaded like the Go range loop. -/
theorem foldPkgs_pkgs (tmp arch : String) (env : Nat → MirrorData) :
    ∀ (l : List ZarfPackage) (i : Nat) (st st1 : CreateState),
      foldPkgs tmp arch env i st l = .ok st1 →
      st1.pkgs = st.pkgs ++ mapFromIdx (mirroredPkg arch env) i l := by
  intro l
  induction l with
  | nil =>
    intro i st st1 h
    cases h
    simp [mapFromIdx]
  | cons p ps ih =>
    intro i st st1 h
    simp only [foldPkgs] at h
    cases hp : processPkg tmp arch (env i) st p with
    | error e => rw [hp] at h; cases h
    | ok st2 =>
      rw [hp] at h
      have h2 := ih (i + 1) st2 st1 h
      have h3 := processPkg_pkgs tmp arch env i st st2 p hp
      rw [h2, h3, mapFromIdx]
      simp

/-- After the finishing sequence of `Create`, index.json lists exactly the
root manifest descriptor: the rewrite replaces the index with that single
entry, and the only later push (the signature) is a plain blob push which
does not touch the index. -/
theorem finishCreate_index (tmp : String) (b : UDSBundle) (sig : List Nat)
    (st : CreateState) :
    (finishCreate tmp b sig st).store.indexManifests =
      [(finishCreate tmp b sig st).rootManifestDesc] := by
  simp only [finishCreate]
  split <;>
    simp [pushBundleSignature, pushBlob, blob_not_manifest, descriptorOfBytes]

/-- `getArchAux` returns the first entry accepted by `a != ""`, with the
fallback when none is. -/
theorem getArchAux_eq (goarch : String) :
    ∀ l : List String,
      getArchAux goarch l = ((l.find? fun a => a != "").getD goarch) := by
  intro l
  induction l with
  | nil => rfl
  | cons a as ih =>
    by_cases h : a = ""
    · subst h
      rw [show getArchAux goarch ("" :: as) = getArchAux goarch as from by
        simp [getArchAux]]
      simpa [List.find?_cons] using ih
    · have hb : (a != "") = true := by simpa using h
      rw [show getArchAux goarch (a :: as) = a from by simp [getArchAux, h]]
      simp [List.find?_cons, hb]

/-! ## Concrete fixtures for witnesses and counterexamples -/

/-- Worked-example bundle metadata. -/
def exMeta : UDSMetadata :=
  ⟨"ex", "an example bundle", "0.0.1", "amd64", "", "", "", "", ""⟩

/-- A remote child package. -/
def remotePkgEx : ZarfPackage := ⟨"a", "r.example/a", "1.0", ""⟩

/-- A local child package. -/
def localPkgEx : ZarfPackage := ⟨"b", "", "v1", "pkgs/b.tar.zst"⟩

/-- A child package with neither repository nor path. -/
def badPkgEx : ZarfPackage := ⟨"mypkg", "", "1.0", ""⟩

/-- Remote mirror data for the worked examples: an image manifest of bytes
[1, 2, 3] (so its push adds an intermediate index entry) and one layer. -/
def cmEx : ChildMirror :=
  ⟨MediaTypeImageManifest, [1, 2, 3], [], [(ZarfLayerMediaTypeBlob, [7, 8])]⟩

/-- Local mirror data for the worked examples. -/
def lmEx : LocalMirror := ⟨[[4, 5]], [6, 6, 6]⟩

/-- Combined per-child environment for the worked examples. -/
def envEx : Nat → MirrorData := fun _ => ⟨cmEx, lmEx⟩

/-- Bundle with one remote child. -/
def bundleR : UDSBundle := ⟨exMeta, ⟨"amd64"⟩, [remotePkgEx]⟩

/-- Bundle with one local child. -/
def bundleL : UDSBundle := ⟨exMeta, ⟨"amd64"⟩, [localPkgEx]⟩

/-- Bundle with one child that has neither repository nor path. -/
def bundleBad : UDSBundle := ⟨exMeta, ⟨"amd64"⟩, [badPkgEx]⟩

/-- Bundle whose metadata has an empty architecture. -/
def bundleNoArch : UDSBundle :=
  ⟨{ exMeta with Architecture := "" }, ⟨"amd64"⟩, [remotePkgEx]⟩

/-! ## Claims -/

/-- C5: if `bundle.Metadata.Architecture` is empty, both `Create` and
`CreateAndPublish` return the configuration error "architecture is
required for bundling" as their very first step, for every environment,
destination and initial remote state — no store, filesystem or network
effect is reachable. -/
theorem create_requires_architecture (tmp : String) (b : UDSBundle)
    (sig sig2 : List Nat) (env : Nat → MirrorData) (dst : String)
    (r0 : RemoteState) (env2 : Nat → ChildMirror)
    (h : b.Metadata.Architecture = "") :
    Create tmp b sig env = .error errArchRequired ∧
    CreateAndPublish dst r0 b sig2 env2 = .error errArchRequired ∧
    strHasSub "architecture is required" errArchRequired = true := by
  refine ⟨?_, ?_, by decide⟩ <;> simp [Create, CreateAndPublish, h]

/-- Witness for C5 at a concrete bundle with empty architecture. -/
theorem create_requires_architecture_witness :
    bundleNoArch.Metadata.Architecture = "" ∧
    Create "t5" bundleNoArch [] envEx = .error errArchRequired ∧
    CreateAndPublish "d" ⟨[], []⟩ bundleNoArch [] (fun _ => cmEx) =
      .error errArchRequired :=
  ⟨rfl,
   (create_requires_architecture "t5" bundleNoArch [] [] envEx "d" ⟨[], []⟩
     (fun _ => cmEx) rfl).1,
   (create_requires_architecture "t5" bundleNoArch [] [] envEx "d" ⟨[], []⟩
     (fun _ => cmEx) rfl).2.1⟩

/-- C6 counterexample: `Create` on a child with neither repository nor
path fails, but the error message is the fixed todo string, which does not
reference the offending child name ("mypkg"). -/
theorem neither_repo_nor_path_cex :
    Create "t6" bundleBad [] envEx = .error errNoRepoNoPath ∧
    strHasSub badPkgEx.Name errNoRepoNoPath = false := by
  exact ⟨by decide, by decide⟩

/-- C6 (amended): a child with neither repository nor path makes the loop
fail with the fixed error message "todo: haven\x27t we already validated
that Path or Repository is valid"; the message does not mention the
child's name. -/
theorem neither_repo_nor_path_todo_error (tmp arch : String) (md : MirrorData)
    (st : CreateState) (pkg : ZarfPackage)
    (h1 : pkg.Repository = "") (h2 : pkg.Path = "") :
    processPkg tmp arch md st pkg = .error errNoRepoNoPath := by
  simp [processPkg, h1, h2]

/-- Witness for the amended C6. -/
theorem neither_repo_nor_path_todo_error_witness :
    badPkgEx.Repository = "" ∧ badPkgEx.Path = "" ∧
    processPkg "t" "amd64" ⟨cmEx, lmEx⟩ st0 badPkgEx = .error errNoRepoNoPath :=
  ⟨rfl, rfl,
   neither_repo_nor_path_todo_error "t" "amd64" ⟨cmEx, lmEx⟩ st0 badPkgEx rfl rfl⟩

/-- C7: the bundle config blob is the `ConfigPartial` with the
architecture from build data, ociVersion "1.0.1" and title/description
annotations from metadata; its descriptor media type is the image manifest
type in local mode (`createManifestConfig`) and the image config type in
remote mode (`pushManifestConfigFromMetadata`). -/
theorem config_blob_shape (m : UDSMetadata) (b : UDSBuildData) (r : RemoteState) :
    (configPartialOfMetadata m b).Architecture = b.Architecture ∧
    (configPartialOfMetadata m b).OCIVersion = "1.0.1" ∧
    (configPartialOfMetadata m b).Annotations =
      [(AnnotationTitle, m.Name), (AnnotationDescription, m.Description)] ∧
    createManifestConfig m b =
      descriptorOfBytes MediaTypeImageManifest
        (encodeConfig (configPartialOfMetadata m b)) ∧
    (pushManifestConfigFromMetadata r m b).2 =
      descriptorOfBytes MediaTypeImageConfig
        (encodeConfig (configPartialOfMetadata m b)) ∧
    (createManifestConfig m b).mediaType = MediaTypeImageManifest ∧
    (pushManifestConfigFromMetadata r m b).2.mediaType = MediaTypeImageConfig :=
  ⟨rfl, rfl, rfl, rfl, rfl, rfl, rfl⟩

/-- C3: whenever `Create` succeeds, the final index.json lists exactly one
manifest descriptor — the bundle root manifest — for every bundle,
signature and child environment (so regardless of the intermediate index
entries added while pushing child manifests). -/
theorem create_index_single_root (tmp : String) (b : UDSBundle)
    (sig : List Nat) (env : Nat → MirrorData) (r : CreateResult)
    (h : Create tmp b sig env = .ok r) :
    r.store.indexManifests = [r.rootManifestDesc] := by
  unfold Create at h
  split at h
  next => cases h
  next =>
    cases hf : foldPkgs tmp b.Metadata.Architecture env 0 st0 b.ZarfPackages with
    | error e => rw [hf] at h; cases h
    | ok st => rw [hf] at h; cases h; exact finishCreate_index tmp b sig st

/-- Witness for C3: a concrete run in which the child manifest push did add
an intermediate index entry, discarded by the final rewrite. -/
theorem create_index_single_root_witness :
    Create "t3" bundleR [] envEx = .ok (cResult (Create "t3" bundleR [] envEx)) ∧
    (cResult (Create "t3" bundleR [] envEx)).store.indexManifests =
      [(cResult (Create "t3" bundleR [] envEx)).rootManifestDesc] := by
  have h : Create "t3" bundleR [] envEx =
      .ok (cResult (Create "t3" bundleR [] envEx)) :=
    ok_cResult _ rfl
  exact ⟨h, create_index_single_root "t3" bundleR [] envEx _ h⟩

/-- C10: `GetArch` returns the first non-empty entry of the priority list
formed by the global CLIArch followed by the arguments in order, and
`runtime.GOARCH` when every entry is empty. -/
theorem getArch_first_nonempty (cliArch goarch : String) (archs : List String) :
    GetArch cliArch goarch archs =
      (((cliArch :: archs).find? fun a => a != "").getD goarch) :=
  getArchAux_eq goarch (cliArch :: archs)

/-- C4: whenever `Create` succeeds, every local child (empty repository,
non-empty path) of the input bundle appears in the result with its ref
rewritten to `<original>-<architecture>@sha256:<hex>`, where `<hex>` is the
sha256 digest of the rewritten child manifest pushed by ToBundle — a
64-character lowercase hex string. -/
theorem create_local_ref_rewrite (tmp : String) (b : UDSBundle) (sig : List Nat)
    (env : Nat → MirrorData) (r : CreateResult) (i : Nat) (p : ZarfPackage)
    (hok : Create tmp b sig env = .ok r)
    (hp : b.ZarfPackages[i]? = some p)
    (hrepo : p.Repository = "") (hpath : p.Path ≠ "") :
    r.bundle.ZarfPackages[i]? = some { p with
      Ref := (p.Ref ++ "-" ++ b.Metadata.Architecture ++ "@sha256:"
        ++ sha256Hex (env i).loc.rewrittenManifestBytes) } ∧
    (sha256Hex (env i).loc.rewrittenManifestBytes).length = 64 ∧
    ∀ c ∈ (sha256Hex (env i).loc.rewrittenManifestBytes).data, c ∈ hexAlpha := by
  refine ⟨?_, sha256Hex_length _, sha256Hex_chars _⟩
  unfold Create at hok
  split at hok
  next => cases hok
  next =>
    cases hf : foldPkgs tmp b.Metadata.Architecture env 0 st0 b.ZarfPackages with
    | error e => rw [hf] at hok; cases hok
    | ok st =>
      rw [hf] at hok
      cases hok
      have hpk := foldPkgs_pkgs tmp b.Metadata.Architecture env b.ZarfPackages 0
        st0 st hf
      have hb : (finishCreate tmp b sig st).bundle.ZarfPackages = st.pkgs := by
        simp [finishCreate]
      rw [hb, hpk]
      rw [show st0.pkgs = ([] : List ZarfPackage) from rfl, List.nil_append]
      rw [mapFromIdx_get? _ b.ZarfPackages 0 i, hp]
      simp [mirroredPkg, hrepo]

/-- Witness for C4 on a concrete bundle with one local child. -/
theorem create_local_ref_rewrite_witness :
    Create "t4" bundleL [] envEx = .ok (cResult (Create "t4" bundleL [] envEx)) ∧
    (cResult (Create "t4" bundleL [] envEx)).bundle.ZarfPackages[0]? =
      some { localPkgEx with Ref := (localPkgEx.Ref ++ "-"
        ++ bundleL.Metadata.Architecture ++ "@sha256:"
        ++ sha256Hex (envEx 0).loc.rewrittenManifestBytes) } := by
  have h := ok_cResult (Create "t4" bundleL [] envEx) rfl
  exact ⟨h, (create_local_ref_rewrite "t4" bundleL [] envEx _ 0 localPkgEx h rfl
    rfl (by decide)).1⟩

/-- C9: when a child has a non-empty repository, `Create` takes the remote
branch — the result does not depend on the local-archive data at all, the
appended root layer is the remote child manifest descriptor, and the child
record (its ref included) is kept unchanged; the local workflow applies
only when the repository is empty and the path non-empty, in which case
the appended layer is the rewritten-manifest descriptor of ToBundle and
the ref is rewritten. -/
theorem remote_branch_priority (tmp arch : String) (md : MirrorData)
    (lm : LocalMirror) (st : CreateState) (pkg : ZarfPackage) :
    (pkg.Repository ≠ "" →
      processPkg tmp arch { md with loc := lm } st pkg =
        processPkg tmp arch md st pkg ∧
      ∀ st1, processPkg tmp arch md st pkg = .ok st1 →
        st1.pkgs = st.pkgs ++ [pkg] ∧
        st1.layers = st.layers ++
          [{ descriptorOfBytes md.remote.manifestMediaType md.remote.manifestBytes
             with annots := md.remote.manifestAnnots }]) ∧
    (pkg.Repository = "" → pkg.Path ≠ "" →
      ∀ st1, processPkg tmp arch md st pkg = .ok st1 →
        st1.pkgs = st.pkgs ++ [{ pkg with Ref := (pkg.Ref ++ "-" ++ arch
          ++ "@sha256:" ++ sha256Hex md.loc.rewrittenManifestBytes) }] ∧
        st1.layers = st.layers ++
          [descriptorOfBytes MediaTypeImageManifest md.loc.rewrittenManifestBytes]) := by
  constructor
  · intro h
    constructor
    · unfold processPkg
      rw [if_pos h, if_pos h]
    · intro st1 h1
      unfold processPkg at h1
      rw [if_pos h] at h1
      cases h1
      exact ⟨rfl, by simp [remotePushManifest]⟩
  · intro h hp st1 h1
    unfold processPkg at h1
    rw [if_neg (by simp [h]), if_pos hp] at h1
    cases h1
    exact ⟨by simp [toBundle, descriptorOfBytes],
           by simp [toBundle, descriptorOfBytes]⟩

/-- Witness for C9 at a concrete remote child: changing the local mirror
data does not change the result. -/
theorem remote_branch_priority_witness :
    remotePkgEx.Repository ≠ "" ∧
    processPkg "t9" "amd64" { (⟨cmEx, lmEx⟩ : MirrorData) with loc := ⟨[], [9]⟩ }
        st0 remotePkgEx =
      processPkg "t9" "amd64" ⟨cmEx, lmEx⟩ st0 remotePkgEx := by
  have h : remotePkgEx.Repository ≠ "" := by decide
  exact ⟨h, ((remote_branch_priority "t9" "amd64" ⟨cmEx, lmEx⟩ ⟨[], [9]⟩ st0
    remotePkgEx).1 h).1⟩

/-- C8 counterexample: in remote-publish mode the serialized root manifest
has an empty media type field (the `ocispec.Manifest` zero value is never
assigned), so it does not equal the image manifest media type. -/
theorem publish_root_mediatype_cex :
    (CreateAndPublish "dst" ⟨[], []⟩ bundleR [] fun _ => cmEx).map
        (fun p => p.rootManifest.mediaType) = .ok "" ∧
    ("" : String) ≠ MediaTypeImageManifest := by
  exact ⟨rfl, by decide⟩

/-- C8 (amended): both modes serialize a root manifest with schema version
2; in local mode the manifest also carries the image-manifest media type,
while in remote mode the manifest media type field stays empty (only the
push descriptor `expected` carries the image-manifest media type). -/
theorem root_manifest_header_fields (tmp dst : String) (b : UDSBundle)
    (sig sig2 : List Nat) (env : Nat → MirrorData) (r0 : RemoteState)
    (env2 : Nat → ChildMirror) :
    (∀ r : CreateResult, Create tmp b sig env = .ok r →
      r.pushedRootManifest.schemaVersion = 2 ∧
      r.pushedRootManifest.mediaType = MediaTypeImageManifest) ∧
    (∀ p : PublishResult, CreateAndPublish dst r0 b sig2 env2 = .ok p →
      p.rootManifest.schemaVersion = 2 ∧
      p.rootManifest.mediaType = "" ∧
      p.rootManifestDesc.mediaType = MediaTypeImageManifest) := by
  constructor
  · intro r h
    unfold Create at h
    split at h
    next => cases h
    next =>
      cases hf : foldPkgs tmp b.Metadata.Architecture env 0 st0 b.ZarfPackages with
      | error e => rw [hf] at h; cases h
      | ok st =>
        rw [hf] at h
        cases h
        constructor <;> simp [finishCreate]
  · intro p h
    unfold CreateAndPublish at h
    split at h
    next => cases h
    next =>
      cases h
      exact ⟨rfl, rfl, rfl⟩

/-- Witness for the amended C8, exercising both modes. -/
theorem root_manifest_header_fields_witness :
    Create "t8" bundleR [] envEx = .ok (cResult (Create "t8" bundleR [] envEx)) ∧
    (cResult (Create "t8" bundleR [] envEx)).pushedRootManifest.schemaVersion = 2 ∧
    (cResult (Create "t8" bundleR [] envEx)).pushedRootManifest.mediaType =
      MediaTypeImageManifest ∧
    CreateAndPublish "d8" ⟨[], []⟩ bundleR [] (fun _ => cmEx) =
      .ok (pResult (CreateAndPublish "d8" ⟨[], []⟩ bundleR [] fun _ => cmEx)) ∧
    (pResult (CreateAndPublish "d8" ⟨[], []⟩ bundleR [] fun _ => cmEx)).rootManifest.mediaType = "" := by
  have h1 := ok_cResult (Create "t8" bundleR [] envEx) rfl
  have h2 := ok_pResult (CreateAndPublish "d8" ⟨[], []⟩ bundleR [] fun _ => cmEx) rfl
  have t := root_manifest_header_fields "t8" "d8" bundleR [] [] envEx ⟨[], []⟩
    fun _ => cmEx
  exact ⟨h1, (t.1 _ h1).1, (t.1 _ h1).2, h2, (t.2 _ h2).2.1⟩

/-- C1: at a concrete input with a non-empty signature, the root manifest
that `Create` serializes and pushes has layers equal to the child manifest
descriptor followed by the uds-bundle.yaml descriptor only — the signature
descriptor is appended to the in-memory `rootManifest.Layers` after
`json.Marshal` has already run, so the pushed manifest omits it. -/
theorem create_pushed_root_omits_signature_layer :
    (Create "t1" bundleR [9] envEx).map
        (fun r => (r.pushedRootManifest.layers, r.memRootManifest.layers)) =
      .ok ([descriptorOfBytes MediaTypeImageManifest [1, 2, 3],
            { descriptorOfBytes ZarfLayerMediaTypeBlob (encodeBundle bundleR) with
              annots := [(AnnotationTitle, BundleYAML)] }],
           [descriptorOfBytes MediaTypeImageManifest [1, 2, 3],
            { descriptorOfBytes ZarfLayerMediaTypeBlob (encodeBundle bundleR) with
              annots := [(AnnotationTitle, BundleYAML)] },
            { descriptorOfBytes ZarfLayerMediaTypeBlob [9] with
              annots := [(AnnotationTitle, BundleYAMLSignature)] }]) := by
  decide

/-- C2: at a concrete input with a non-empty signature, the signature blob
is stored verbatim in the content store, yet no layer of the serialized
and pushed root manifest carries the `uds-bundle.yaml.sig` title
annotation — the extra signature layer never reaches the pushed
manifest in local mode. -/
theorem create_signature_absent_from_pushed_root :
    (Create "t2" bundleR [5, 6] envEx).map (fun r =>
        (r.pushedRootManifest.layers.filter fun d =>
           d.annots.lookup AnnotationTitle == some BundleYAMLSignature,
         lookupBlob r.store (sha256Hex [5, 6]))) =
      .ok ([], some [5, 6]) := by
  decide

end Uds
